import Mathlib

/-!
Shallow embedding of the FlowText asynchronous task-orchestration core:
the progress-task registry (the ProgressMonitor class), the bounded error
log (the ErrorHandler class), the dynamic progress animator and the
recognition pipeline controller of RecognitionPanel.vue, together with
proofs of the specified properties.

JavaScript numbers are modelled as rationals, Date values as rational
millisecond timestamps, and each asynchronous handler as a pure function
from state (plus the outcomes of its awaited external calls, passed as
parameters) to state.
-/

namespace FlowText

/-- Values of the ProgressStatus enum of the progress monitor. -/
inductive ProgressStatus where
  | idle
  | pending
  | running
  | completed
  | failed
  | cancelled
deriving DecidableEq

/-- The ProgressTask interface.  `context` is the opaque diagnostic
key-value bag attached at creation. -/
structure ProgressTask where
  id : String
  name : String
  status : ProgressStatus
  progress : ℚ
  message : Option String := none
  error : Option String := none
  startTime : Option ℚ := none
  endTime : Option ℚ := none
  estimatedDuration : Option ℚ := none
  context : Option (List (String × String)) := none
deriving DecidableEq

/-- Lookup in the task map (Map.get on the `tasks` map, keyed by task id). -/
def findTask (ts : List (String × ProgressTask)) (id : String) : Option ProgressTask :=
  match ts with
  | [] => none
  | (k, v) :: rest => if k = id then some v else findTask rest id

/-- Map.set on the task map: replace the entry for `id`, or append a new one. -/
def setTask (ts : List (String × ProgressTask)) (id : String) (t : ProgressTask) :
    List (String × ProgressTask) :=
  match ts with
  | [] => [(id, t)]
  | (k, v) :: rest => if k = id then (k, t) :: rest else (k, v) :: setTask rest id t

/-- Map.get on the `listeners` map; listener callbacks are modelled by
opaque numeric identities. -/
def findListeners (ls : List (String × List Nat)) (id : String) : Option (List Nat) :=
  match ls with
  | [] => none
  | (k, v) :: rest => if k = id then some v else findListeners rest id

/-- Map.set on the `listeners` map. -/
def setListeners (ls : List (String × List Nat)) (id : String) (v : List Nat) :
    List (String × List Nat) :=
  match ls with
  | [] => [(id, v)]
  | (k, w) :: rest => if k = id then (k, v) :: rest else (k, w) :: setListeners rest id v

/-- State of the ProgressMonitor class: the static task and listener maps,
plus the observable trace of listener notifications (one `(listener, task)`
pair per callback invocation) and of the ElMessage toasts it emitted. -/
structure RegState where
  tasks : List (String × ProgressTask) := []
  listeners : List (String × List Nat) := []
  events : List (Nat × ProgressTask) := []
  toasts : List String := []
deriving DecidableEq

def RegState.empty : RegState := {}

/-- ProgressMonitor.notifyListeners: invokes every listener registered for
`id` with the task value (recorded here as one event per listener). -/
def notifyListeners (s : RegState) (id : String) (t : ProgressTask) : RegState :=
  { s with events := s.events ++ ((findListeners s.listeners id).getD []).map (fun l => (l, t)) }

/-- Truthiness of an optional string in a JavaScript `if`: undefined and
the empty string are falsy. -/
def strTruthy : Option String → Bool
  | none => false
  | some m => m != ""

/-- ProgressMonitor.createTask: allocates a fresh task in idle with
progress 0 and stores it together with an empty listener list; `id` stands
for the value produced by generateId(). -/
def ProgressMonitor.createTask (s : RegState) (id name : String)
    (estimatedDuration : Option ℚ) (context : Option (List (String × String))) : RegState :=
  { s with
      tasks := setTask s.tasks id
        { id := id, name := name, status := ProgressStatus.idle, progress := 0,
          estimatedDuration := estimatedDuration, context := context }
      listeners := setListeners s.listeners id [] }

/-- ProgressMonitor.startTask: transitions the task to running, resets
progress to 0 and sets startTime; a silent no-op when the task is absent.
The object spread assigns `message` from the parameter even when the
parameter is absent (undefined). -/
def ProgressMonitor.startTask (s : RegState) (id : String) (message : Option String)
    (now : ℚ) : RegState :=
  match findTask s.tasks id with
  | none => s
  | some t =>
    let t' := { t with status := ProgressStatus.running, progress := 0,
                       message := message, startTime := some now }
    notifyListeners { s with tasks := setTask s.tasks id t' } id t'

/-- ProgressMonitor.updateProgress: clamps the progress argument into
[0,100] via Math.max(0, Math.min(100, progress)) and replaces the message;
a silent no-op when the task is absent. -/
def ProgressMonitor.updateProgress (s : RegState) (id : String) (progress : ℚ)
    (message : Option String) : RegState :=
  match findTask s.tasks id with
  | none => s
  | some t =>
    let t' := { t with progress := max 0 (min 100 progress), message := message }
    notifyListeners { s with tasks := setTask s.tasks id t' } id t'

/-- ProgressMonitor.completeTask: sets status completed, progress 100 and
endTime, then shows a success toast when the message is truthy. -/
def ProgressMonitor.completeTask (s : RegState) (id : String) (message : Option String)
    (now : ℚ) : RegState :=
  match findTask s.tasks id with
  | none => s
  | some t =>
    let t' := { t with status := ProgressStatus.completed, progress := 100,
                       message := message, endTime := some now }
    let s' := notifyListeners { s with tasks := setTask s.tasks id t' } id t'
    if strTruthy message then { s' with toasts := s'.toasts ++ [message.getD ""] } else s'

/-- ProgressMonitor.failTask: sets status failed, the error text and
endTime (progress and message are untouched by the spread), then shows an
error toast. -/
def ProgressMonitor.failTask (s : RegState) (id : String) (error : String) (now : ℚ) :
    RegState :=
  match findTask s.tasks id with
  | none => s
  | some t =>
    let t' := { t with status := ProgressStatus.failed, error := some error,
                       endTime := some now }
    let s' := notifyListeners { s with tasks := setTask s.tasks id t' } id t'
    { s' with toasts := s'.toasts ++ ["任务失败: " ++ error] }

/-- ProgressMonitor.cancelTask: sets status cancelled, the message and
endTime, then shows an info toast when the message is truthy. -/
def ProgressMonitor.cancelTask (s : RegState) (id : String) (message : Option String)
    (now : ℚ) : RegState :=
  match findTask s.tasks id with
  | none => s
  | some t =>
    let t' := { t with status := ProgressStatus.cancelled, message := message,
                       endTime := some now }
    let s' := notifyListeners { s with tasks := setTask s.tasks id t' } id t'
    if strTruthy message then { s' with toasts := s'.toasts ++ [message.getD ""] } else s'

/-- ProgressMonitor.getEstimatedTimeRemaining: null when the task, its
startTime or its estimatedDuration is missing — the JavaScript guard
`!task.estimatedDuration` also treats the number 0 as missing; otherwise
linear extrapolation from elapsed time and progress, clamped to be
non-negative (returning estimatedDuration itself while progress is 0). -/
def ProgressMonitor.getEstimatedTimeRemaining (s : RegState) (id : String) (now : ℚ) :
    Option ℚ :=
  match findTask s.tasks id with
  | none => none
  | some t =>
    match t.startTime, t.estimatedDuration with
    | some st, some ed =>
      if ed = 0 then none
      else
        let elapsed := now - st
        if t.progress / 100 ≤ 0 then some ed
        else some (max 0 (elapsed / (t.progress / 100) - elapsed))
    | some _, none => none
    | none, _ => none

@[simp] theorem findTask_setTask_self (ts : List (String × ProgressTask)) (id : String)
    (t : ProgressTask) : findTask (setTask ts id t) id = some t := by
  induction ts with
  | nil => simp [setTask, findTask]
  | cons hd tl ih =>
    obtain ⟨k, v⟩ := hd
    by_cases h : k = id <;> simp [setTask, findTask, h, ih]

theorem mem_setTask (ts : List (String × ProgressTask)) (id : String) (t : ProgressTask) :
    ∀ p ∈ setTask ts id t, p.2 = t ∨ p ∈ ts := by
  induction ts with
  | nil =>
    intro p hp
    simp [setTask] at hp
    subst hp
    exact Or.inl rfl
  | cons hd tl ih =>
    obtain ⟨k, v⟩ := hd
    intro p hp
    by_cases h : k = id
    · simp [setTask, h] at hp
      rcases hp with hp | hp
      · subst hp; exact Or.inl rfl
      · exact Or.inr (List.mem_cons_of_mem _ hp)
    · simp [setTask, h] at hp
      rcases hp with hp | hp
      · subst hp; exact Or.inr (List.mem_cons_self _ _)
      · rcases ih p hp with h2 | h2
        · exact Or.inl h2
        · exact Or.inr (List.mem_cons_of_mem _ h2)

theorem findTask_mem (ts : List (String × ProgressTask)) (id : String) (t : ProgressTask)
    (h : findTask ts id = some t) : (id, t) ∈ ts := by
  induction ts with
  | nil => simp [findTask] at h
  | cons hd tl ih =>
    obtain ⟨k, v⟩ := hd
    by_cases hk : k = id
    · subst hk
      simp [findTask] at h
      subst h
      exact List.mem_cons_self _ _
    · simp [findTask, hk] at h
      exact List.mem_cons_of_mem _ (ih h)

/-- Claim C5: for every task id present in the registry and every input
number p, after updateProgress(id, p, msg) the stored progress is exactly
Math.max(0, Math.min(100, p)), hence lies in [0,100]; input −10 is stored
as 0, input 150 as 100, and any p already in [0,100] is stored unchanged. -/
theorem updateProgress_clamps (s : RegState) (id : String) (p : ℚ) (message : Option String)
    (t : ProgressTask) (h : findTask s.tasks id = some t) :
    ∃ t', findTask (ProgressMonitor.updateProgress s id p message).tasks id = some t' ∧
      t'.progress = max 0 (min 100 p) ∧
      0 ≤ t'.progress ∧ t'.progress ≤ 100 ∧
      (p = -10 → t'.progress = 0) ∧
      (p = 150 → t'.progress = 100) ∧
      (0 ≤ p → p ≤ 100 → t'.progress = p) := by
  refine ⟨{ t with progress := max 0 (min 100 p), message := message }, ?_, rfl, ?_, ?_, ?_, ?_, ?_⟩
  · simp [ProgressMonitor.updateProgress, h, notifyListeners]
  · exact le_max_left 0 _
  · exact max_le (by norm_num) (min_le_left 100 p)
  · intro hp; subst hp; norm_num
  · intro hp; subst hp; norm_num
  · intro h0 h100
    simp [min_eq_right h100, max_eq_right h0]

/-- A concrete registry holding one running task "t1", used by witnesses:
created with an estimate of 120000 ms and started at time 0. -/
def wReg : RegState :=
  ProgressMonitor.startTask
    (ProgressMonitor.createTask RegState.empty "t1" "任务" (some 120000) none)
    "t1" (some "go") 0

/-- The task stored in `wReg`. -/
def wTask : ProgressTask :=
  { id := "t1", name := "任务", status := ProgressStatus.running, progress := 0,
    message := some "go", startTime := some 0, estimatedDuration := some 120000 }

/-- Witness for C5: in the concrete registry `wReg`, updating with -10
stores progress 0. -/
theorem updateProgress_clamps_witness :
    ∃ t', findTask (ProgressMonitor.updateProgress wReg "t1" (-10) none).tasks "t1" = some t' ∧
      t'.progress = 0 := by
  obtain ⟨t', h1, -, -, -, h5, -, -⟩ :=
    updateProgress_clamps wReg "t1" (-10) none wTask (by decide)
  exact ⟨t', h1, h5 rfl⟩

/-- Claim C10: every registry mutator invoked with an id not present in
the store is a silent no-op: it notifies no listeners and leaves the whole
registry state (tasks, listener lists, event and toast traces) unchanged. -/
theorem mutators_noop_on_absent (s : RegState) (id : String) (message : Option String)
    (p : ℚ) (err : String) (now : ℚ) (h : findTask s.tasks id = none) :
    ProgressMonitor.startTask s id message now = s ∧
    ProgressMonitor.updateProgress s id p message = s ∧
    ProgressMonitor.completeTask s id message now = s ∧
    ProgressMonitor.failTask s id err now = s ∧
    ProgressMonitor.cancelTask s id message now = s := by
  refine ⟨?_, ?_, ?_, ?_, ?_⟩ <;>
    simp [ProgressMonitor.startTask, ProgressMonitor.updateProgress,
      ProgressMonitor.completeTask, ProgressMonitor.failTask,
      ProgressMonitor.cancelTask, h]

/-- Witness for C10: the five mutators leave `wReg` unchanged for the
absent id "zzz". -/
theorem mutators_noop_on_absent_witness :
    ProgressMonitor.startTask wReg "zzz" none 5 = wReg ∧
    ProgressMonitor.updateProgress wReg "zzz" 7 none = wReg ∧
    ProgressMonitor.completeTask wReg "zzz" none 5 = wReg ∧
    ProgressMonitor.failTask wReg "zzz" "e" 5 = wReg ∧
    ProgressMonitor.cancelTask wReg "zzz" none 5 = wReg :=
  mutators_noop_on_absent wReg "zzz" none 7 "e" 5 (by decide)

/-- Terminal statuses: completed, failed and cancelled. -/
def isTerminal : ProgressStatus → Bool
  | ProgressStatus.completed => true
  | ProgressStatus.failed => true
  | ProgressStatus.cancelled => true
  | _ => false

/-- The per-task invariant of the spec: endTime is set exactly for the
terminal statuses, and a completed task has progress 100 and endTime set. -/
def taskInv (t : ProgressTask) : Prop :=
  t.endTime.isSome = isTerminal t.status ∧
  (t.status = ProgressStatus.completed → t.progress = 100 ∧ t.endTime.isSome = true)

/-- The registry invariant: every stored task satisfies `taskInv`. -/
def regInv (s : RegState) : Prop := ∀ p ∈ s.tasks, taskInv p.2

/-- One registry operation; the generated id of createTask and the Date
values taken inside each mutator are made explicit arguments. -/
inductive RegOp where
  | create (id name : String) (estimatedDuration : Option ℚ)
      (context : Option (List (String × String)))
  | start (id : String) (message : Option String) (now : ℚ)
  | update (id : String) (progress : ℚ) (message : Option String)
  | complete (id : String) (message : Option String) (now : ℚ)
  | fail (id : String) (error : String) (now : ℚ)
  | cancel (id : String) (message : Option String) (now : ℚ)
deriving DecidableEq

def applyOp (s : RegState) : RegOp → RegState
  | RegOp.create id name ed ctx => ProgressMonitor.createTask s id name ed ctx
  | RegOp.start id msg now => ProgressMonitor.startTask s id msg now
  | RegOp.update id p msg => ProgressMonitor.updateProgress s id p msg
  | RegOp.complete id msg now => ProgressMonitor.completeTask s id msg now
  | RegOp.fail id err now => ProgressMonitor.failTask s id err now
  | RegOp.cancel id msg now => ProgressMonitor.cancelTask s id msg now

def applyOps (s : RegState) (ops : List RegOp) : RegState := ops.foldl applyOp s

/-- Side condition under which an operation preserves the invariant (the
correction the code forces on claim C1): startTask must not hit a task that
is already terminal, and updateProgress with a value below 100 must not hit
a completed task. -/
def opOk (s : RegState) : RegOp → Bool
  | RegOp.start id _ _ =>
    match findTask s.tasks id with
    | some t => !(isTerminal t.status)
    | none => true
  | RegOp.update id p _ =>
    match findTask s.tasks id with
    | some t => !(t.status == ProgressStatus.completed) || decide ((100 : ℚ) ≤ p)
    | none => true
  | _ => true

def opsOk : RegState → List RegOp → Bool
  | _, [] => true
  | s, op :: rest => opOk s op && opsOk (applyOp s op) rest

theorem regInv_step (s : RegState) (op : RegOp) (hs : regInv s) (hok : opOk s op = true) :
    regInv (applyOp s op) := by
  cases op with
  | create id name ed ctx =>
    intro p hp
    simp only [applyOp, ProgressMonitor.createTask] at hp
    rcases mem_setTask _ _ _ p hp with h2 | h2
    · rw [h2]; exact ⟨rfl, by intro h; cases h⟩
    · exact hs _ h2
  | start id msg now =>
    cases hf : findTask s.tasks id with
    | none =>
      intro p hp
      simp only [applyOp, ProgressMonitor.startTask, hf] at hp
      exact hs _ hp
    | some t =>
      have ht := hs _ (findTask_mem _ _ _ hf)
      have hterm : isTerminal t.status = false := by
        have h := hok
        simp only [opOk, hf, Bool.not_eq_true'] at h
        exact h
      intro p hp
      simp only [applyOp, ProgressMonitor.startTask, hf, notifyListeners] at hp
      rcases mem_setTask _ _ _ p hp with h2 | h2
      · rw [h2]
        refine ⟨?_, by intro h; cases h⟩
        simpa [isTerminal] using ht.1.trans hterm
      · exact hs _ h2
  | update id p0 msg =>
    cases hf : findTask s.tasks id with
    | none =>
      intro p hp
      simp only [applyOp, ProgressMonitor.updateProgress, hf] at hp
      exact hs _ hp
    | some t =>
      have ht := hs _ (findTask_mem _ _ _ hf)
      have hok' : t.status = ProgressStatus.completed → (100 : ℚ) ≤ p0 := by
        have h := hok
        simp only [opOk, hf, Bool.or_eq_true, Bool.not_eq_true', beq_eq_false_iff_ne,
          decide_eq_true_eq] at h
        intro hc
        exact h.elim (fun hne => absurd hc hne) (fun hle => hle)
      intro p hp
      simp only [applyOp, ProgressMonitor.updateProgress, hf, notifyListeners] at hp
      rcases mem_setTask _ _ _ p hp with h2 | h2
      · rw [h2]
        refine ⟨ht.1, ?_⟩
        intro hc
        have h100 := hok' hc
        refine ⟨?_, (ht.2 hc).2⟩
        simp [min_eq_left h100]
      · exact hs _ h2
  | complete id msg now =>
    cases hf : findTask s.tasks id with
    | none =>
      intro p hp
      simp only [applyOp, ProgressMonitor.completeTask, hf] at hp
      exact hs _ hp
    | some t =>
      intro p hp
      simp only [applyOp, ProgressMonitor.completeTask, hf, notifyListeners,
        apply_ite RegState.tasks, ite_self] at hp
      rcases mem_setTask _ _ _ p hp with h2 | h2
      · rw [h2]; exact ⟨rfl, fun _ => ⟨rfl, rfl⟩⟩
      · exact hs _ h2
  | fail id err now =>
    cases hf : findTask s.tasks id with
    | none =>
      intro p hp
      simp only [applyOp, ProgressMonitor.failTask, hf] at hp
      exact hs _ hp
    | some t =>
      intro p hp
      simp only [applyOp, ProgressMonitor.failTask, hf, notifyListeners] at hp
      rcases mem_setTask _ _ _ p hp with h2 | h2
      · rw [h2]; exact ⟨rfl, by intro h; cases h⟩
      · exact hs _ h2
  | cancel id msg now =>
    cases hf : findTask s.tasks id with
    | none =>
      intro p hp
      simp only [applyOp, ProgressMonitor.cancelTask, hf] at hp
      exact hs _ hp
    | some t =>
      intro p hp
      simp only [applyOp, ProgressMonitor.cancelTask, hf, notifyListeners,
        apply_ite RegState.tasks, ite_self] at hp
      rcases mem_setTask _ _ _ p hp with h2 | h2
      · rw [h2]; exact ⟨rfl, by intro h; cases h⟩
      · exact hs _ h2

theorem regInv_run (ops : List RegOp) :
    ∀ s, regInv s → opsOk s ops = true → regInv (applyOps s ops) := by
  induction ops with
  | nil => intro s hs _; simpa [applyOps] using hs
  | cons op rest ih =>
    intro s hs hok
    simp only [opsOk, Bool.and_eq_true] at hok
    have h1 := regInv_step s op hs hok.1
    simpa [applyOps] using ih (applyOp s op) h1 hok.2

theorem regInv_empty : regInv RegState.empty := by
  intro p hp
  simp [RegState.empty] at hp

/-- Claim C1 (amended): the terminal-state invariant — endTime is set iff
the status is terminal, and a completed task has progress 100 and a
non-null endTime — holds after every sequence of registry operations from
the empty registry, provided startTask is never applied to a task already
in a terminal state and updateProgress with a value below 100 is never
applied to a completed task. -/
theorem registry_invariant_sequences (ops : List RegOp)
    (h : opsOk RegState.empty ops = true) : regInv (applyOps RegState.empty ops) :=
  regInv_run ops RegState.empty regInv_empty h

/-- Counterexample to C1 as stated: the sequence createTask → completeTask
→ updateProgress 50 leaves a stored task with status completed and
progress 50, so the invariant is not preserved by every operation
sequence. -/
theorem registry_invariant_cex :
    ¬ regInv (applyOps RegState.empty
      [RegOp.create "t" "n" none none, RegOp.complete "t" none 5,
        RegOp.update "t" 50 none]) := by
  intro h
  have h2 := h ("t",
    { id := "t", name := "n", status := ProgressStatus.completed, progress := 50,
      message := none, error := none, startTime := none, endTime := some 5,
      estimatedDuration := none, context := none }) (by decide)
  exact absurd (h2.2 rfl).1 (by norm_num)

/-- Concrete operation sequence for the C1 witness. -/
def wOps : List RegOp :=
  [RegOp.create "a" "n" (some 1000) none, RegOp.start "a" (some "go") 0,
    RegOp.update "a" 40 none, RegOp.fail "a" "boom" 9]

/-- Witness for C1: the amended side condition holds for `wOps` and the
invariant holds in the resulting registry. -/
theorem registry_invariant_sequences_witness :
    opsOk RegState.empty wOps = true ∧ regInv (applyOps RegState.empty wOps) :=
  ⟨by decide, registry_invariant_sequences wOps (by decide)⟩

/-- Registry whose only task has estimatedDuration 0, startTime set and
progress 50: reachable by createTask → startTask → updateProgress. -/
def zeroEdReg : RegState :=
  ProgressMonitor.updateProgress
    (ProgressMonitor.startTask
      (ProgressMonitor.createTask RegState.empty "t1" "任务" (some 0) none) "t1" none 0)
    "t1" 50 none

/-- Counterexample to C6 as stated: in `zeroEdReg` the task is present with
startTime and estimatedDuration both set, yet getEstimatedTimeRemaining is
null — the JavaScript truthiness guard treats the estimate 0 as missing. -/
theorem getEstimatedTimeRemaining_cex :
    findTask zeroEdReg.tasks "t1" =
      some { id := "t1", name := "任务", status := ProgressStatus.running, progress := 50,
             message := none, error := none, startTime := some 0, endTime := none,
             estimatedDuration := some 0, context := none } ∧
    ProgressMonitor.getEstimatedTimeRemaining zeroEdReg "t1" 1000 = none := by
  decide

/-- Claim C6 (amended): getEstimatedTimeRemaining returns null exactly when
the task is absent, has no startTime, or has estimatedDuration absent or
equal to 0; for every task with startTime and a nonzero estimatedDuration
it returns estimatedDuration itself while progress ≤ 0, and for positive
progress the linear estimate elapsed / (progress/100) − elapsed clamped to
≥ 0, which is a non-negative number. -/
theorem getEstimatedTimeRemaining_spec (s : RegState) (id : String) (now : ℚ) :
    (findTask s.tasks id = none →
      ProgressMonitor.getEstimatedTimeRemaining s id now = none) ∧
    (∀ t, findTask s.tasks id = some t →
      (ProgressMonitor.getEstimatedTimeRemaining s id now = none ↔
        t.startTime = none ∨ t.estimatedDuration = none ∨ t.estimatedDuration = some 0) ∧
      (∀ st ed, t.startTime = some st → t.estimatedDuration = some ed → ed ≠ 0 →
        (t.progress ≤ 0 →
          ProgressMonitor.getEstimatedTimeRemaining s id now = some ed) ∧
        (0 < t.progress →
          ProgressMonitor.getEstimatedTimeRemaining s id now =
            some (max 0 ((now - st) / (t.progress / 100) - (now - st))) ∧
          ∀ r, ProgressMonitor.getEstimatedTimeRemaining s id now = some r → 0 ≤ r))) := by
  constructor
  · intro h
    simp [ProgressMonitor.getEstimatedTimeRemaining, h]
  · intro t ht
    constructor
    · cases hst : t.startTime with
      | none => simp [ProgressMonitor.getEstimatedTimeRemaining, ht, hst]
      | some st =>
        cases hed : t.estimatedDuration with
        | none => simp [ProgressMonitor.getEstimatedTimeRemaining, ht, hst, hed]
        | some ed =>
          by_cases h0 : ed = 0
          · simp [ProgressMonitor.getEstimatedTimeRemaining, ht, hst, hed, h0]
          · by_cases hp : t.progress / 100 ≤ 0 <;>
              simp [ProgressMonitor.getEstimatedTimeRemaining, ht, hst, hed, h0, hp]
    · intro st ed hst hed hne
      constructor
      · intro hple
        have h1 : t.progress / 100 ≤ 0 :=
          div_nonpos_iff.mpr (Or.inr ⟨hple, by norm_num⟩)
        simp [ProgressMonitor.getEstimatedTimeRemaining, ht, hst, hed, hne, h1]
      · intro hpos
        have h2 : ¬ t.progress / 100 ≤ 0 := not_le.mpr (div_pos hpos (by norm_num))
        constructor
        · simp [ProgressMonitor.getEstimatedTimeRemaining, ht, hst, hed, hne, h2]
        · intro r hr
          simp [ProgressMonitor.getEstimatedTimeRemaining, ht, hst, hed, hne, h2] at hr
          rw [← hr]
          exact le_max_left 0 _

/-- Registry `wReg` after updating the progress of "t1" to 50. -/
def wReg2 : RegState := ProgressMonitor.updateProgress wReg "t1" 50 none

/-- The task stored in `wReg2`. -/
def wTask2 : ProgressTask :=
  { id := "t1", name := "任务", status := ProgressStatus.running, progress := 50,
    message := none, startTime := some 0, estimatedDuration := some 120000 }

/-- Witness for C6: in `wReg2` (estimate 120000 ms, progress 50, started at
time 0) the estimate at time 1000 is 1000 ms. -/
theorem getEstimatedTimeRemaining_spec_witness :
    ProgressMonitor.getEstimatedTimeRemaining wReg2 "t1" 1000 = some 1000 := by
  have h := (getEstimatedTimeRemaining_spec wReg2 "t1" 1000).2 wTask2 (by decide)
  have h2 := (h.2 0 120000 (by decide) (by decide) (by norm_num)).2 (by decide)
  rw [h2.1]
  norm_num [wTask2, max_def]

/-- The ErrorType enum of errorHandler.ts. -/
inductive ErrorType where
  | NETWORK
  | FILE_SYSTEM
  | VALIDATION
  | RECOGNITION
  | VIDEO_PROCESSING
  | UNKNOWN
deriving DecidableEq

/-- Runtime string value of an ErrorType member (TypeScript string enum). -/
def ErrorType.value : ErrorType → String
  | ErrorType.NETWORK => "network"
  | ErrorType.FILE_SYSTEM => "file_system"
  | ErrorType.VALIDATION => "validation"
  | ErrorType.RECOGNITION => "recognition"
  | ErrorType.VIDEO_PROCESSING => "video_processing"
  | ErrorType.UNKNOWN => "unknown"

/-- The ErrorSeverity enum of errorHandler.ts. -/
inductive ErrorSeverity where
  | LOW
  | MEDIUM
  | HIGH
  | CRITICAL
deriving DecidableEq

/-- Runtime string value of an ErrorSeverity member. -/
def ErrorSeverity.value : ErrorSeverity → String
  | ErrorSeverity.LOW => "low"
  | ErrorSeverity.MEDIUM => "medium"
  | ErrorSeverity.HIGH => "high"
  | ErrorSeverity.CRITICAL => "critical"

/-- An AppError record.  The generated id, the timestamp and the
diagnostic details/stack/context fields are not load-bearing for any claim
and are omitted.  TypeScript enums are erased to strings at runtime and
the RecognitionPanel call sites cast their arguments through `any`, so
`type` and `severity` are modelled as the raw strings actually stored. -/
structure AppError where
  type : String
  severity : String
  message : String
deriving DecidableEq

def ErrorHandler.maxErrors : Nat := 100

/-- ErrorHandler.handle together with addError: builds the AppError,
unshifts it onto the list (newest first) and truncates past maxErrors. -/
def ErrorHandler.handle (message typ severity : String) (errors : List AppError) :
    List AppError :=
  let l : List AppError := { type := typ, severity := severity, message := message } :: errors
  if ErrorHandler.maxErrors < l.length then l.take ErrorHandler.maxErrors else l

/-- Animation context captured by one startProgressAnimation invocation:
the displayed value at start, the signed difference to the target and the
start timestamp (the 1000 ms duration is a constant). -/
structure AnimCtx where
  startProgress : ℚ
  progressDiff : ℚ
  startTime : ℚ
deriving DecidableEq

/-- State of the dynamic progress animator: the displayed percentage, the
status message, the isProgressAnimating flag, and the pending frame
callback with its captured context (none when progressAnimationId is
null). -/
structure AnimState where
  dynamicProgress : ℚ := 0
  progressMessage : String := ""
  isProgressAnimating : Bool := false
  animCtx : Option AnimCtx := none
deriving DecidableEq

/-- startProgressAnimation: stores the message, cancels any pending frame
callback and schedules a fresh animation interpolating from the current
displayed value toward the target. -/
def startProgressAnimation (a : AnimState) (targetProgress : ℚ) (message : String)
    (now : ℚ) : AnimState :=
  { dynamicProgress := a.dynamicProgress
    progressMessage := message
    isProgressAnimating := true
    animCtx := some { startProgress := a.dynamicProgress
                      progressDiff := targetProgress - a.dynamicProgress
                      startTime := now } }

/-- One frame of the animate closure at clock `now`: cubic ease-out toward
the target; below time fraction 1 the callback is rescheduled, at 1 the
animation ends. -/
def animFrame (a : AnimState) (now : ℚ) : AnimState :=
  match a.animCtx with
  | none => a
  | some c =>
    let elapsed := now - c.startTime
    let progress := min (elapsed / 1000) 1
    let ease := 1 - (1 - progress) ^ 3
    let d := c.startProgress + c.progressDiff * ease
    if progress < 1 then { a with dynamicProgress := d }
    else { a with dynamicProgress := d, isProgressAnimating := false, animCtx := none }

/-- Frames fired at the given sequence of timestamps. -/
def animFrames (a : AnimState) (ts : List ℚ) : AnimState := ts.foldl animFrame a

/-- stopProgressAnimation: cancels the pending callback and resets the
displayed value and the message. -/
def stopProgressAnimation (_a : AnimState) : AnimState :=
  { dynamicProgress := 0, progressMessage := "", isProgressAnimating := false,
    animCtx := none }

theorem animFrame_keeps_ctx (a : AnimState) (c : AnimCtx) (u : ℚ)
    (hc : a.animCtx = some c) (hu : u < c.startTime + 1000) :
    (animFrame a u).animCtx = some c := by
  have hlt : (u - c.startTime) / 1000 < 1 := by
    rw [div_lt_one (by norm_num)]
    linarith
  have hmin : min ((u - c.startTime) / 1000) 1 < 1 :=
    lt_of_le_of_lt (min_le_left _ _) hlt
  simp [animFrame, hc, hmin]

theorem animFrames_keep_ctx (frames : List ℚ) (c : AnimCtx)
    (hf : ∀ u ∈ frames, u < c.startTime + 1000) :
    ∀ a, a.animCtx = some c → (animFrames a frames).animCtx = some c := by
  induction frames with
  | nil => intro a ha; simpa [animFrames] using ha
  | cons u rest ih =>
    intro a ha
    have h1 := animFrame_keeps_ctx a c u ha (hf u (List.mem_cons_self _ _))
    have h2 := ih (fun v hv => hf v (List.mem_cons_of_mem _ hv)) (animFrame a u) h1
    simpa [animFrames] using h2

/-- Claim C9: starting a new animation replaces any in-flight frame
callback and restarts interpolation from the current displayed value (not
from 0); consequently, after a retarget at time t2, frames fired before
t2+1000 keep the new animation alive and the first frame at or after
t2+1000 ends the animation with the displayed value exactly at the second
target. -/
theorem animator_retarget_second_target (a : AnimState) (target2 : ℚ) (m2 : String)
    (t2 : ℚ) (frames : List ℚ) (tEnd : ℚ)
    (hf : ∀ u ∈ frames, u < t2 + 1000) (hEnd : t2 + 1000 ≤ tEnd) :
    (startProgressAnimation a target2 m2 t2).animCtx =
      some { startProgress := a.dynamicProgress,
             progressDiff := target2 - a.dynamicProgress, startTime := t2 } ∧
    (animFrame (animFrames (startProgressAnimation a target2 m2 t2) frames)
        tEnd).dynamicProgress = target2 ∧
    (animFrame (animFrames (startProgressAnimation a target2 m2 t2) frames)
        tEnd).animCtx = none := by
  have hstart : (startProgressAnimation a target2 m2 t2).animCtx =
      some { startProgress := a.dynamicProgress,
             progressDiff := target2 - a.dynamicProgress, startTime := t2 } := rfl
  have hctx := animFrames_keep_ctx frames
    { startProgress := a.dynamicProgress, progressDiff := target2 - a.dynamicProgress,
      startTime := t2 } hf (startProgressAnimation a target2 m2 t2) hstart
  have hge : (1 : ℚ) ≤ (tEnd - t2) / 1000 := by
    rw [le_div_iff₀ (by norm_num)]
    linarith
  have hmin : min ((tEnd - t2) / 1000) 1 = 1 := min_eq_right hge
  refine ⟨hstart, ?_, ?_⟩
  · simp [animFrame, hctx, hmin]
  · simp [animFrame, hctx, hmin]

/-- A mid-flight first animation: started toward 80 at time 0, one frame
fired at 200. -/
def wAnimMid : AnimState := animFrames (startProgressAnimation {} 80 "m1" 0) [200]

/-- Witness for C9: retargeting `wAnimMid` toward 40 at time 300, with an
intermediate frame at 500, ends at exactly 40 (not 80) at time 1300. -/
theorem animator_retarget_second_target_witness :
    (animFrame (animFrames (startProgressAnimation wAnimMid 40 "m2" 300) [500])
        1300).dynamicProgress = 40 ∧
    (animFrame (animFrames (startProgressAnimation wAnimMid 40 "m2" 300) [500])
        1300).animCtx = none := by
  have h := animator_retarget_second_target wAnimMid 40 "m2" 300 [500] 1300
    (by intro u hu; rw [List.mem_singleton] at hu; subst hu; norm_num) (by norm_num)
  exact ⟨h.2.1, h.2.2⟩

/-- Controller status values (the recognitionStatus ref of
RecognitionPanel.vue). -/
inductive RecStatus where
  | idle
  | extracting
  | recognizing
  | completed
  | failed
deriving DecidableEq

/-- A subtitle entry as stored by the video store (camelCase fields). -/
structure Subtitle where
  id : String
  startTime : ℚ
  endTime : ℚ
  text : String
deriving DecidableEq

/-- A timed entry as reported by the recognition backend (snake_case
fields). -/
structure RawSubtitle where
  id : String
  start_time : ℚ
  end_time : ℚ
  text : String
deriving DecidableEq

/-- The field renaming performed in the completed branch of the poll
tick. -/
def convertSubtitle (r : RawSubtitle) : Subtitle :=
  { id := r.id, startTime := r.start_time, endTime := r.end_time, text := r.text }

/-- A patch forwarded to videoStore.updateRecognitionTask; the video
store is an external session store, so only the patch trace is modelled. -/
structure RecPatch where
  taskId : String
  status : String
  progress : ℚ
  error : Option String
deriving DecidableEq

/-- Loaded video info (the fields the controller reads). -/
structure VideoInfo where
  filePath : String
  fileName : String
deriving DecidableEq

/-- The slice of the video store the controller reads and writes. -/
structure VideoState where
  currentVideo : Option VideoInfo := none
  selectedAudioTrackId : Option ℤ := none
  subtitles : List Subtitle := []
  recPatches : List RecPatch := []
deriving DecidableEq

/-- The isVideoLoaded computed of the video store: currentVideo is not
null. -/
def VideoState.isVideoLoaded (v : VideoState) : Bool := v.currentVideo.isSome

/-- The controller's reactive refs in RecognitionPanel.vue. -/
structure CtrlState where
  recognitionStatus : RecStatus := RecStatus.idle
  currentTaskId : Option String := none
  currentProgressTaskId : Option String := none
  recognitionProgress : ℚ := 0
  errorMessage : String := ""
  loadingExtract : Bool := false
  loadingRecognize : Bool := false
deriving DecidableEq

/-- One external collaborator call issued by the controller. -/
inductive ExtCall where
  | extractAudio (filePath : String) (trackId : ℤ)
  | getRecognitionStatus (taskId : String)
  | cancelRecognition (taskId : String)
deriving DecidableEq

/-- Whole-system state: controller refs, video-store slice, task
registry, error log, animator, whether the 2000 ms poll interval is
alive, and the observable traces of collaborator calls, ElMessage toasts
and emitted component events. -/
structure SysState where
  ctrl : CtrlState := {}
  video : VideoState := {}
  reg : RegState := {}
  errors : List AppError := []
  anim : AnimState := {}
  pollActive : Bool := false
  calls : List ExtCall := []
  toasts : List String := []
  emits : List String := []
deriving DecidableEq

/-- The canStartRecognition computed: a video is loaded, an audio track
is selected, and the controller is neither extracting nor recognizing.
The template disables the start button unless it holds. -/
def canStartRecognition (s : SysState) : Bool :=
  s.video.isVideoLoaded && s.video.selectedAudioTrackId.isSome &&
  !(s.ctrl.recognitionStatus == RecStatus.extracting) &&
  !(s.ctrl.recognitionStatus == RecStatus.recognizing)

/-- A status response from getRecognitionStatus: status tag, progress as
a fraction in [0,1], optional subtitles and optional error text. -/
structure RecStatusResp where
  status : String
  progress : ℚ
  subtitles : Option (List RawSubtitle) := none
  error : Option String := none
deriving DecidableEq

/-- Math.round. -/
def jsRound (x : ℚ) : ℤ := ⌊x + 1 / 2⌋

/-- One tick of the 2000 ms polling interval of
monitorRecognitionProgress.  The guard on recognitionStatus is the first
statement of the tick, before any side effect; `resp` carries the outcome
of the awaited getRecognitionStatus call (Except.error models the call
throwing, with the error rendered as a string) and `now` the clock at
which the tick runs. -/
def pollTick (s : SysState) (taskId progressTaskId : String)
    (resp : Except String RecStatusResp) (now : ℚ) : SysState :=
  if s.ctrl.recognitionStatus ≠ RecStatus.recognizing then
    { s with pollActive := false }
  else
    let s0 := { s with calls := s.calls ++ [ExtCall.getRecognitionStatus taskId] }
    match resp with
    | Except.error e =>
      let errMsg := "获取识别状态失败: " ++ e
      { s0 with
          pollActive := false
          ctrl := { s0.ctrl with
                      recognitionStatus := RecStatus.failed
                      loadingRecognize := false
                      currentTaskId := none
                      errorMessage := errMsg
                      currentProgressTaskId := none }
          errors := ErrorHandler.handle e "NETWORK_ERROR" "HIGH" s0.errors
          reg := ProgressMonitor.failTask s0.reg progressTaskId errMsg now
          toasts := s0.toasts ++ [errMsg] }
    | Except.ok st =>
      let progressPercent := st.progress * 100
      let adjustedProgress := 30 + st.progress * 70
      let updMsg := "识别进度: " ++ toString (jsRound progressPercent) ++ "%"
      let progressMsg := match st.error with
        | some e => if e = "" then updMsg else e
        | none => updMsg
      let patch : RecPatch :=
        { taskId := taskId, status := st.status, progress := progressPercent,
          error := st.error }
      let s1 := { s0 with
          ctrl := { s0.ctrl with recognitionProgress := progressPercent }
          reg := ProgressMonitor.updateProgress s0.reg progressTaskId adjustedProgress
            (some updMsg)
          anim := startProgressAnimation s0.anim progressPercent progressMsg now
          video := { s0.video with recPatches := s0.video.recPatches ++ [patch] } }
      if st.status = "completed" then
        let s2 := { s1 with
            pollActive := false
            anim := stopProgressAnimation s1.anim
            ctrl := { s1.ctrl with
                        recognitionStatus := RecStatus.idle
                        loadingRecognize := false
                        currentTaskId := none
                        currentProgressTaskId := none } }
        match st.subtitles with
        | some subs =>
          if 0 < subs.length then
            let doneMsg := "识别完成，共生成" ++ toString subs.length ++ "条字幕"
            { s2 with
                video := { s2.video with subtitles := subs.map convertSubtitle }
                reg := ProgressMonitor.completeTask s2.reg progressTaskId (some doneMsg) now
                toasts := s2.toasts ++ [doneMsg]
                emits := s2.emits ++ ["switchToSubtitleEditor"] }
          else
            { s2 with
                reg := ProgressMonitor.completeTask s2.reg progressTaskId
                  (some "识别完成，但未生成字幕") now
                toasts := s2.toasts ++ ["识别完成，但未生成字幕"] }
        | none =>
          { s2 with
              reg := ProgressMonitor.completeTask s2.reg progressTaskId
                (some "识别完成，但未生成字幕") now
              toasts := s2.toasts ++ ["识别完成，但未生成字幕"] }
      else if st.status = "failed" then
        let errMsg := match st.error with
          | some e => if e = "" then "未知错误" else e
          | none => "未知错误"
        { s1 with
            pollActive := false
            anim := stopProgressAnimation s1.anim
            ctrl := { s1.ctrl with
                        recognitionStatus := RecStatus.failed
                        errorMessage := errMsg
                        loadingRecognize := false
                        currentTaskId := none
                        currentProgressTaskId := none }
            errors := ErrorHandler.handle errMsg "RECOGNITION_ERROR" "HIGH" s1.errors
            reg := ProgressMonitor.failTask s1.reg progressTaskId errMsg now
            toasts := s1.toasts ++ ["识别失败: " ++ errMsg] }
      else s1

/-- Signal returned by cancelRecognitionProcess to its caller. -/
inductive CancelSignal where
  | nothingRunning
  | dismissed
  | cancelled
deriving DecidableEq

/-- cancelRecognitionProcess: shows the click toast, returns the
nothing-running signal when currentTaskId is null; otherwise asks for
confirmation (`confirmed` models the user's choice; declining rejects
into the empty catch), issues the cancelRecognition call (`cancelOk`
false models that call throwing into the same catch), cancels the
progress task and resets the controller to idle. -/
def cancelRecognitionProcess (s : SysState) (confirmed cancelOk : Bool) (now : ℚ) :
    CancelSignal × SysState :=
  let s0 := { s with toasts := s.toasts ++ ["取消按钮点击成功！"] }
  match s0.ctrl.currentTaskId with
  | none =>
    (CancelSignal.nothingRunning,
      { s0 with toasts := s0.toasts ++ ["没有正在运行的识别任务"] })
  | some tid =>
    if ¬ confirmed then (CancelSignal.dismissed, s0)
    else
      let s1 := { s0 with calls := s0.calls ++ [ExtCall.cancelRecognition tid] }
      if ¬ cancelOk then (CancelSignal.dismissed, s1)
      else
        let s2 := match s1.ctrl.currentProgressTaskId with
          | some ptid =>
            { s1 with
                reg := ProgressMonitor.cancelTask s1.reg ptid (some "用户取消识别任务") now
                ctrl := { s1.ctrl with currentProgressTaskId := none } }
          | none => s1
        (CancelSignal.cancelled,
          { s2 with
              ctrl := { s2.ctrl with
                          recognitionStatus := RecStatus.idle
                          currentTaskId := none
                          loadingExtract := false
                          loadingRecognize := false }
              toasts := s2.toasts ++ ["已取消识别任务"] })

/-- startRecognitionProcess modelled up to its first external await (the
extractAudio call): the video/track guard, the model availability check
(`modelAvailable` stands for getModelStatus not being not_available), the
confirmation dialog (`confirmed`; declining rejects into the outer catch
with the string "cancel"), then progress-task creation and entry into the
extracting phase, ending with the extractAudio collaborator call issued.
`taskName` stands for the display name built from the selected model,
`ptid` for the id generated by createTask and `ctx` for the context
object built from the video and the settings. -/
def startRecognitionProcess (s : SysState) (modelAvailable confirmed : Bool)
    (taskName : String) (ctx : Option (List (String × String))) (ptid : String)
    (now : ℚ) : SysState :=
  match s.video.currentVideo, s.video.selectedAudioTrackId with
  | some vid, some track =>
    if ¬ modelAvailable then
      { s with toasts := s.toasts ++ ["所选模型未安装，请先安装相关模块"] }
    else if ¬ confirmed then
      let s' := { s with
          ctrl := { s.ctrl with
                      recognitionStatus := RecStatus.failed
                      errorMessage := "cancel"
                      loadingExtract := false
                      loadingRecognize := false } }
      let s'' := match s'.ctrl.currentProgressTaskId with
        | some p =>
          { s' with
              reg := ProgressMonitor.failTask s'.reg p "cancel" now
              ctrl := { s'.ctrl with currentProgressTaskId := none } }
        | none => s'
      { s'' with toasts := s''.toasts ++ ["cancel"] }
    else
      let s1 := { s with
          reg := ProgressMonitor.createTask s.reg ptid taskName (some 120000) ctx
          ctrl := { s.ctrl with
                      currentProgressTaskId := some ptid
                      recognitionStatus := RecStatus.extracting
                      recognitionProgress := 0
                      errorMessage := ""
                      loadingExtract := true } }
      let s2 := { s1 with
          reg := ProgressMonitor.startTask s1.reg ptid (some "正在提取音频...") now }
      let s3 := { s2 with
          reg := ProgressMonitor.updateProgress s2.reg ptid 10 (some "正在提取音频...") }
      { s3 with calls := s3.calls ++ [ExtCall.extractAudio vid.filePath track] }
  | _, _ => { s with toasts := s.toasts ++ ["请先导入视频并选择音频轨道"] }

/-- A start request from the panel: the template binds the start button
with disabled = !canStartRecognition, so a click reaches
startRecognitionProcess only while the computed guard holds. -/
def startRequest (s : SysState) (modelAvailable confirmed : Bool) (taskName : String)
    (ctx : Option (List (String × String))) (ptid : String) (now : ℚ) : SysState :=
  if canStartRecognition s then
    startRecognitionProcess s modelAvailable confirmed taskName ctx ptid now
  else s

/-- Claim C3: while the controller is extracting or recognizing,
canStartRecognition is false, so a second start request (a click on the
disabled start button) is rejected and has no side effects: no
ProgressTask is created, no collaborator is called and no state field
changes. -/
theorem second_start_rejected (s : SysState) (modelAvailable confirmed : Bool)
    (taskName : String) (ctx : Option (List (String × String))) (ptid : String) (now : ℚ)
    (h : s.ctrl.recognitionStatus = RecStatus.extracting ∨
         s.ctrl.recognitionStatus = RecStatus.recognizing) :
    canStartRecognition s = false ∧
    startRequest s modelAvailable confirmed taskName ctx ptid now = s := by
  have hcan : canStartRecognition s = false := by
    rcases h with h | h <;> simp [canStartRecognition, h]
  exact ⟨hcan, by simp [startRequest, hcan]⟩

/-- A concrete extracting-state system used by witnesses: video loaded,
track selected, registry `wReg`, task "t1" being monitored. -/
def wSysExtracting : SysState :=
  { ctrl := { recognitionStatus := RecStatus.extracting,
              currentProgressTaskId := some "t1" }
    video := { currentVideo := some { filePath := "/v.mp4", fileName := "v.mp4" },
               selectedAudioTrackId := some 0 }
    reg := wReg }

/-- Witness for C3: a start request on `wSysExtracting` changes nothing. -/
theorem second_start_rejected_witness :
    canStartRecognition wSysExtracting = false ∧
    startRequest wSysExtracting true true "语音识别 - w" none "p2" 5 = wSysExtracting :=
  second_start_rejected wSysExtracting true true "语音识别 - w" none "p2" 5 (Or.inl rfl)

/-- Claim C4: when a poll tick fires with the controller no longer in the
recognizing state, the tick only clears the interval: no registry write,
no status call, no other state change — the whole resulting state equals
the old one with pollActive set to false. -/
theorem tick_guard_no_side_effects (s : SysState) (taskId progressTaskId : String)
    (resp : Except String RecStatusResp) (now : ℚ)
    (h : s.ctrl.recognitionStatus ≠ RecStatus.recognizing) :
    pollTick s taskId progressTaskId resp now = { s with pollActive := false } := by
  simp [pollTick, h]

/-- State `wSysExtracting` after a concurrent cancellation has reset the
controller to idle while the poll interval is still alive. -/
def wSysIdle : SysState :=
  { wSysExtracting with
      ctrl := { wSysExtracting.ctrl with recognitionStatus := RecStatus.idle }
      pollActive := true }

/-- Witness for C4: a tick firing on `wSysIdle` only clears the
interval. -/
theorem tick_guard_no_side_effects_witness :
    pollTick wSysIdle "tid" "t1"
        (Except.ok { status := "processing", progress := 1 / 2 }) 100 =
      { wSysIdle with pollActive := false } :=
  tick_guard_no_side_effects wSysIdle "tid" "t1"
    (Except.ok { status := "processing", progress := 1 / 2 }) 100 (by decide)

/-- Claim C8: cancelling when currentTaskId is null returns the
nothing-running signal and leaves the controller state, the registry, the
collaborator call trace, the error log, the animator and the poll flag
all unchanged (only the two informational toasts are shown). -/
theorem cancel_nothing_running (s : SysState) (confirmed cancelOk : Bool) (now : ℚ)
    (h : s.ctrl.currentTaskId = none) :
    (cancelRecognitionProcess s confirmed cancelOk now).1 = CancelSignal.nothingRunning ∧
    (cancelRecognitionProcess s confirmed cancelOk now).2.ctrl = s.ctrl ∧
    (cancelRecognitionProcess s confirmed cancelOk now).2.reg = s.reg ∧
    (cancelRecognitionProcess s confirmed cancelOk now).2.calls = s.calls ∧
    (cancelRecognitionProcess s confirmed cancelOk now).2.errors = s.errors ∧
    (cancelRecognitionProcess s confirmed cancelOk now).2.anim = s.anim ∧
    (cancelRecognitionProcess s confirmed cancelOk now).2.pollActive = s.pollActive := by
  simp [cancelRecognitionProcess, h]

/-- Witness for C8: cancelling on `wSysIdle` (no currentTaskId) returns
the nothing-running signal and touches neither controller nor registry. -/
theorem cancel_nothing_running_witness :
    (cancelRecognitionProcess wSysIdle true true 7).1 = CancelSignal.nothingRunning ∧
    (cancelRecognitionProcess wSysIdle true true 7).2.ctrl = wSysIdle.ctrl ∧
    (cancelRecognitionProcess wSysIdle true true 7).2.reg = wSysIdle.reg ∧
    (cancelRecognitionProcess wSysIdle true true 7).2.calls = wSysIdle.calls ∧
    (cancelRecognitionProcess wSysIdle true true 7).2.errors = wSysIdle.errors ∧
    (cancelRecognitionProcess wSysIdle true true 7).2.anim = wSysIdle.anim ∧
    (cancelRecognitionProcess wSysIdle true true 7).2.pollActive = wSysIdle.pollActive :=
  cancel_nothing_running wSysIdle true true 7 rfl

theorem findTask_updateProgress (s : RegState) (id : String) (p : ℚ) (m : Option String)
    (t : ProgressTask) (h : findTask s.tasks id = some t) :
    findTask (ProgressMonitor.updateProgress s id p m).tasks id =
      some { t with progress := max 0 (min 100 p), message := m } := by
  simp [ProgressMonitor.updateProgress, h, notifyListeners]

theorem findTask_completeTask (s : RegState) (id : String) (m : Option String) (now : ℚ)
    (t : ProgressTask) (h : findTask s.tasks id = some t) :
    findTask (ProgressMonitor.completeTask s id m now).tasks id =
      some { t with status := ProgressStatus.completed, progress := 100, message := m,
                    endTime := some now } := by
  simp [ProgressMonitor.completeTask, h, notifyListeners, apply_ite RegState.tasks,
    ite_self]

theorem findTask_failTask (s : RegState) (id : String) (err : String) (now : ℚ)
    (t : ProgressTask) (h : findTask s.tasks id = some t) :
    findTask (ProgressMonitor.failTask s id err now).tasks id =
      some { t with status := ProgressStatus.failed, error := some err,
                    endTime := some now } := by
  simp [ProgressMonitor.failTask, h, notifyListeners]

/-- Claim C7: on every poll tick in the recognizing state whose status
call reports a progress fraction p ∈ [0,1], the fraction is rescaled
exactly as 30 + p*70 before being written via updateProgress, a value in
[30,100]; after the tick the stored percentage is that value (or 100 when
the tick reports completion, since completeTask then overwrites it), so
it always lies in [30,100]. -/
theorem tick_rescales_progress (s : SysState) (taskId progressTaskId : String)
    (st : RecStatusResp) (now : ℚ) (t : ProgressTask)
    (hrec : s.ctrl.recognitionStatus = RecStatus.recognizing)
    (hreg : findTask s.reg.tasks progressTaskId = some t)
    (h0 : 0 ≤ st.progress) (h1 : st.progress ≤ 1) :
    ((30 : ℚ) ≤ 30 + st.progress * 70 ∧ 30 + st.progress * 70 ≤ 100) ∧
    (findTask (pollTick s taskId progressTaskId (Except.ok st) now).reg.tasks
        progressTaskId).map ProgressTask.progress =
      some (if st.status = "completed" then (100 : ℚ) else 30 + st.progress * 70) ∧
    ∀ q, (findTask (pollTick s taskId progressTaskId (Except.ok st) now).reg.tasks
        progressTaskId).map ProgressTask.progress = some q → 30 ≤ q ∧ q ≤ 100 := by
  have hb1 : (30 : ℚ) ≤ 30 + st.progress * 70 := by nlinarith
  have hb2 : (30 : ℚ) + st.progress * 70 ≤ 100 := by nlinarith
  have hclamp : max 0 (min 100 (30 + st.progress * 70)) = 30 + st.progress * 70 := by
    rw [min_eq_right hb2, max_eq_right (le_trans (by norm_num) hb1)]
  have hupd := findTask_updateProgress s.reg progressTaskId (30 + st.progress * 70)
    (some ("识别进度: " ++ toString (jsRound (st.progress * 100)) ++ "%")) t hreg
  have hmain : (findTask (pollTick s taskId progressTaskId (Except.ok st) now).reg.tasks
      progressTaskId).map ProgressTask.progress =
      some (if st.status = "completed" then (100 : ℚ) else 30 + st.progress * 70) := by
    by_cases hcomp : st.status = "completed"
    · rcases hsubs : st.subtitles with _ | subs
      · have hr : (pollTick s taskId progressTaskId (Except.ok st) now).reg =
            ProgressMonitor.completeTask
              (ProgressMonitor.updateProgress s.reg progressTaskId
                (30 + st.progress * 70)
                (some ("识别进度: " ++ toString (jsRound (st.progress * 100)) ++ "%")))
              progressTaskId (some "识别完成，但未生成字幕") now := by
          simp [pollTick, hrec, hcomp, hsubs]
        rw [hr, findTask_completeTask _ _ _ _ _ hupd]
        simp [hcomp]
      · by_cases hlen : 0 < subs.length
        · have hr : (pollTick s taskId progressTaskId (Except.ok st) now).reg =
              ProgressMonitor.completeTask
                (ProgressMonitor.updateProgress s.reg progressTaskId
                  (30 + st.progress * 70)
                  (some ("识别进度: " ++ toString (jsRound (st.progress * 100)) ++ "%")))
                progressTaskId
                (some ("识别完成，共生成" ++ toString subs.length ++ "条字幕")) now := by
            simp [pollTick, hrec, hcomp, hsubs, hlen]
          rw [hr, findTask_completeTask _ _ _ _ _ hupd]
          simp [hcomp]
        · have hr : (pollTick s taskId progressTaskId (Except.ok st) now).reg =
              ProgressMonitor.completeTask
                (ProgressMonitor.updateProgress s.reg progressTaskId
                  (30 + st.progress * 70)
                  (some ("识别进度: " ++ toString (jsRound (st.progress * 100)) ++ "%")))
                progressTaskId (some "识别完成，但未生成字幕") now := by
            simp [pollTick, hrec, hcomp, hsubs, hlen]
          rw [hr, findTask_completeTask _ _ _ _ _ hupd]
          simp [hcomp]
    · by_cases hfail : st.status = "failed"
      · have hr : (pollTick s taskId progressTaskId (Except.ok st) now).reg =
            ProgressMonitor.failTask
              (ProgressMonitor.updateProgress s.reg progressTaskId
                (30 + st.progress * 70)
                (some ("识别进度: " ++ toString (jsRound (st.progress * 100)) ++ "%")))
              progressTaskId
              (match st.error with
                | some e => if e = "" then "未知错误" else e
                | none => "未知错误") now := by
          simp [pollTick, hrec, hcomp, hfail]
        rw [hr, findTask_failTask _ _ _ _ _ hupd]
        simp [hcomp, hclamp]
      · have hr : (pollTick s taskId progressTaskId (Except.ok st) now).reg =
            ProgressMonitor.updateProgress s.reg progressTaskId
              (30 + st.progress * 70)
              (some ("识别进度: " ++ toString (jsRound (st.progress * 100)) ++ "%")) := by
          simp [pollTick, hrec, hcomp, hfail]
        rw [hr, hupd]
        simp [hcomp, hclamp]
  refine ⟨⟨hb1, hb2⟩, hmain, ?_⟩
  intro q hq
  rw [hmain] at hq
  have hq2 := Option.some.inj hq
  rw [← hq2]
  by_cases hcomp : st.status = "completed"
  · simp only [hcomp, if_pos rfl]
    exact ⟨by norm_num, le_refl 100⟩
  · rw [if_neg hcomp]
    exact ⟨hb1, hb2⟩

/-- State `wSysExtracting` after entering the recognizing phase with backend
task "tid" and a live poll interval. -/
def wSysRecognizing : SysState :=
  { wSysExtracting with
      ctrl := { wSysExtracting.ctrl with
                  recognitionStatus := RecStatus.recognizing
                  currentTaskId := some "tid" }
      pollActive := true }

/-- Witness for C7: a tick reporting fraction 1/2 stores percentage 65. -/
theorem tick_rescales_progress_witness :
    (findTask (pollTick wSysRecognizing "tid" "t1"
        (Except.ok { status := "processing", progress := 1 / 2 }) 100).reg.tasks
        "t1").map ProgressTask.progress = some 65 := by
  have h := tick_rescales_progress wSysRecognizing "tid" "t1"
    { status := "processing", progress := 1 / 2 } 100 wTask (by decide) (by decide)
    (by norm_num) (by norm_num)
  rw [h.2.1, if_neg (by decide)]
  norm_num

/-- Registry for the C2 scenario: task "pt" created, started at time 0
and updated to progress 40. -/
def c2Reg : RegState :=
  ProgressMonitor.updateProgress
    (ProgressMonitor.startTask
      (ProgressMonitor.createTask RegState.empty "pt" "语音识别 - Whisper" (some 120000) none)
      "pt" (some "正在提取音频...") 0)
    "pt" 40 (some "m")

/-- The running task stored in `c2Reg`. -/
def c2Task : ProgressTask :=
  { id := "pt", name := "语音识别 - Whisper", status := ProgressStatus.running,
    progress := 40, message := some "m", startTime := some 0,
    estimatedDuration := some 120000 }

/-- System for the C2 scenario: controller recognizing, backend task
"tid", progress task "pt", empty error log. -/
def c2Sys : SysState :=
  { ctrl := { recognitionStatus := RecStatus.recognizing, currentTaskId := some "tid",
              currentProgressTaskId := some "pt", loadingRecognize := true }
    video := { currentVideo := some { filePath := "/v.mp4", fileName := "v.mp4" },
               selectedAudioTrackId := some 0 }
    reg := c2Reg
    pollActive := true }

/-- Poll response reporting terminal failure "boom" at fraction 1/7
(which rescales to percentage 40, matching the task's progress). -/
def c2Resp : RecStatusResp := { status := "failed", progress := 1 / 7, error := some "boom" }

/-- Claim C2, evaluated at the failing input: failTask on the running
task at progress 40 yields status failed, error "boom", endTime 9000 with
every other field unchanged (first conjunct), and the poll tick observing
the terminal failure appends exactly one AppError carrying message "boom"
— but its type is the string "RECOGNITION_ERROR" and its severity "HIGH",
not the ErrorType.RECOGNITION value "recognition" and the
ErrorSeverity.HIGH value "high" that the ErrorHandler.handle signature
prescribes (the call site casts both through `any`). -/
theorem fail_boom_logs_wrong_kind :
    findTask (ProgressMonitor.failTask c2Reg "pt" "boom" 9000).tasks "pt" =
      some { c2Task with status := ProgressStatus.failed, error := some "boom",
                         endTime := some 9000 } ∧
    (pollTick c2Sys "tid" "pt" (Except.ok c2Resp) 9000).errors =
      [{ type := "RECOGNITION_ERROR", severity := "HIGH", message := "boom" }] ∧
    "RECOGNITION_ERROR" ≠ ErrorType.RECOGNITION.value ∧
    "HIGH" ≠ ErrorSeverity.HIGH.value ∧
    (findTask (pollTick c2Sys "tid" "pt" (Except.ok c2Resp) 9000).reg.tasks "pt").map
      ProgressTask.status = some ProgressStatus.failed ∧
    (findTask (pollTick c2Sys "tid" "pt" (Except.ok c2Resp) 9000).reg.tasks "pt").map
      ProgressTask.error = some (some "boom") ∧
    (findTask (pollTick c2Sys "tid" "pt" (Except.ok c2Resp) 9000).reg.tasks "pt").map
      ProgressTask.progress = some 40 ∧
    (findTask (pollTick c2Sys "tid" "pt" (Except.ok c2Resp) 9000).reg.tasks "pt").map
      ProgressTask.endTime = some (some 9000) := by
  have hfind : findTask c2Reg.tasks "pt" = some c2Task := by decide
  have hregeq : (pollTick c2Sys "tid" "pt" (Except.ok c2Resp) 9000).reg =
      ProgressMonitor.failTask
        (ProgressMonitor.updateProgress c2Reg "pt" (30 + 1 / 7 * 70)
          (some ("识别进度: " ++ toString (jsRound (1 / 7 * 100)) ++ "%"))) "pt" "boom" 9000 := by
    simp [pollTick, c2Sys, c2Resp]
  have hupd := findTask_updateProgress c2Reg "pt" (30 + 1 / 7 * 70)
    (some ("识别进度: " ++ toString (jsRound (1 / 7 * 100)) ++ "%")) c2Task hfind
  have hfail := findTask_failTask _ "pt" "boom" 9000 _ hupd
  have herr : (pollTick c2Sys "tid" "pt" (Except.ok c2Resp) 9000).errors =
      [{ type := "RECOGNITION_ERROR", severity := "HIGH", message := "boom" }] := by
    simp [pollTick, c2Sys, c2Resp, ErrorHandler.handle, ErrorHandler.maxErrors, c2Reg]
  refine ⟨findTask_failTask c2Reg "pt" "boom" 9000 c2Task hfind, herr,
    by decide, by decide, ?_, ?_, ?_, ?_⟩ <;>
    (rw [hregeq, hfail]; simp; try norm_num)

end FlowText
